import Mathlib

/-!
Shallow embedding of the `EX2_SP24` repository scripts, together with
theorems settling the spec claims about them.

Python's `/` raises `ZeroDivisionError` when the divisor is zero, for both
`int` and `float` operands; we model every such division in the translated
code by `pydiv`, returning `Except PyErr ℝ`.
-/

noncomputable section

/-- The runtime error a Python division can raise. -/
inductive PyErr where
  | zeroDivisionError
deriving DecidableEq

/-- Python division `a / b`: raises `ZeroDivisionError` when `b = 0`. -/
def pydiv (a b : ℝ) : Except PyErr ℝ :=
  if b = 0 then .error .zeroDivisionError else .ok (a / b)

theorem pydiv_ne_zero (a b : ℝ) (h : b ≠ 0) : pydiv a b = .ok (a / b) :=
  if_neg h

theorem pydiv_zero (a : ℝ) : pydiv a 0 = .error .zeroDivisionError :=
  if_pos rfl

namespace Ex2_3

/-- Acceleration due to gravity (ft/s^2), module constant `g` of `Ex2_3.py`. -/
def g : ℝ := 32.2

/-- Density of water (lb/ft^3), module constant `rho` of `Ex2_3.py`. -/
def rho : ℝ := 62.3

/-- Viscosity of water (lb/(ft*s)), module constant `mu` of `Ex2_3.py`. -/
def mu : ℝ := 20.50e-6

/-- Conversion factor from inches to feet, module constant of `Ex2_3.py`. -/
def inch_to_ft : ℝ := 1 / 12

/-- The `Pipe` class of `Ex2_3.py`: node references are modelled by the
node's (unique) one-character name. `flow_rate` is `0` at construction. -/
structure Pipe where
  diameter : ℝ
  length : ℝ
  roughness : ℝ
  start_node : Char
  end_node : Char
  flow_rate : ℝ

/-- The `if Re < 2000 / else` statement of lines 24-29: the laminar branch
computes `64 / Re` (a Python division, hence `pydiv`), the turbulent branch
assigns the hardcoded constant `0.02`. -/
def friction_step (re : ℝ) : Except PyErr ℝ :=
  if re < 2000 then pydiv 64 re else pure 0.02

/-- `Pipe.calculate_flow_rate` of `Ex2_3.py` (lines 18-33), with every
Python division modelled by `pydiv`.  The inner `/ 2` divides by the
literal `2` and cannot raise, so it stays a plain division. -/
def Pipe.calculate_flow_rate (p : Pipe) : Except PyErr ℝ := do
  let velocity ← pydiv p.flow_rate (Real.pi * (p.diameter * inch_to_ft / 2) ^ 2)
  let re ← pydiv (velocity * p.diameter * inch_to_ft) mu
  let f ← friction_step re
  let t ← pydiv (f * (p.length * inch_to_ft)) (p.diameter * inch_to_ft)
  pydiv (t * (rho * velocity ^ 2)) (2 * g)

/-- The first two statements of `Pipe.calculate_flow_rate` (lines 20-21):
the computation of the Reynolds number `Re`. -/
def Pipe.reynolds (p : Pipe) : Except PyErr ℝ := do
  let velocity ← pydiv p.flow_rate (Real.pi * (p.diameter * inch_to_ft / 2) ^ 2)
  pydiv (velocity * p.diameter * inch_to_ft) mu

/-- Value of `velocity` (line 20) when no division raises. -/
def Pipe.velocity_val (p : Pipe) : ℝ :=
  p.flow_rate / (Real.pi * (p.diameter * inch_to_ft / 2) ^ 2)

/-- Value of `Re` (line 21) when no division raises. -/
def Pipe.re_val (p : Pipe) : ℝ :=
  p.velocity_val * p.diameter * inch_to_ft / mu

/-- The friction-factor selection of lines 24-29: `64 / Re` in the laminar
branch (`Re < 2000`), the hardcoded constant `0.02` otherwise. -/
def friction_factor (re : ℝ) : ℝ :=
  if re < 2000 then 64 / re else 0.02

/-- Value of `head_loss` (line 32) when no division raises. -/
def Pipe.head_loss_val (p : Pipe) : ℝ :=
  friction_factor p.re_val * (p.length * inch_to_ft) / (p.diameter * inch_to_ft) *
    (rho * p.velocity_val ^ 2) / (2 * g)

/-- The `Node` class of `Ex2_3.py`.  Python stores references to the
incident `Pipe` objects in `connected_pipes`; we model a reference by the
pipe's index in the network's ordered pipe store. -/
structure Node where
  name : Char
  pressure : ℝ
  connected_pipes : List ℕ

/-- `Node.add_pipe` (lines 41-42). -/
def Node.add_pipe (n : Node) (pipeRef : ℕ) : Node :=
  { n with connected_pipes := n.connected_pipes ++ [pipeRef] }

/-- The `PipeNetwork` class state: the insertion-ordered node dict and the
insertion-ordered pipe dict (name, pipe). -/
structure PipeNetwork where
  nodes : List Node
  pipes : List (String × Pipe)

/-- The `pipe_connections` dict of `PipeNetwork.__init__` (lines 50-64),
in insertion order. -/
def pipe_connections : List (String × Char × Char) :=
  [("a-b", 'a', 'b'), ("a-h", 'a', 'h'), ("b-c", 'b', 'c'), ("b-e", 'b', 'e'),
   ("c-d", 'c', 'd'), ("c-f", 'c', 'f'), ("d-g", 'd', 'g'), ("e-f", 'e', 'f'),
   ("e-i", 'e', 'i'), ("f-g", 'f', 'g'), ("g-j", 'g', 'j'), ("h-i", 'h', 'i'),
   ("i-j", 'i', 'j')]

/-- `PipeNetwork.get_pipe_properties` (lines 77-94): diameter (in),
length (in), roughness (ft) by pipe name.  Looking up any other key would
raise `KeyError` in Python; the method is only ever called with the 13 keys
of `pipe_connections`, so the fallback value is never reached. -/
def get_pipe_properties (pipe_name : String) : ℝ × ℝ × ℝ :=
  if pipe_name = "a-b" then (18, 1000, 0.00085)
  else if pipe_name = "a-h" then (24, 1600, 0.00085)
  else if pipe_name = "b-c" then (18, 500, 0.00085)
  else if pipe_name = "b-e" then (16, 800, 0.00085)
  else if pipe_name = "c-d" then (18, 500, 0.00085)
  else if pipe_name = "c-f" then (16, 800, 0.00085)
  else if pipe_name = "d-g" then (16, 800, 0.00085)
  else if pipe_name = "e-f" then (12, 500, 0.00085)
  else if pipe_name = "e-i" then (18, 800, 0.003)
  else if pipe_name = "f-g" then (12, 500, 0.00085)
  else if pipe_name = "g-j" then (18, 800, 0.003)
  else if pipe_name = "h-i" then (24, 1000, 0.003)
  else if pipe_name = "i-j" then (24, 1000, 0.003)
  else (0, 0, 0)

/-- One iteration of the pipe-creation loop of `__init__` (lines 68-75):
create the pipe, register it with its start node, then with its end node,
and store it in the pipe dict. -/
def add_connection (net : PipeNetwork) (conn : String × Char × Char) : PipeNetwork :=
  let pipeRef := net.pipes.length
  let props := get_pipe_properties conn.1
  let pipe : Pipe :=
    { diameter := props.1, length := props.2.1, roughness := props.2.2,
      start_node := conn.2.1, end_node := conn.2.2, flow_rate := 0 }
  { nodes :=
      (net.nodes.map fun n => if n.name = conn.2.1 then n.add_pipe pipeRef else n).map
        fun n => if n.name = conn.2.2 then n.add_pipe pipeRef else n,
    pipes := net.pipes ++ [(conn.1, pipe)] }

/-- `PipeNetwork.__init__` (lines 45-75): ten nodes named `a` to `j`, each
with the default pressure `80`, then the thirteen pipes. -/
def mkNetwork : PipeNetwork :=
  let init : PipeNetwork :=
    { nodes := "abcdefghij".toList.map fun c =>
        { name := c, pressure := 80, connected_pipes := [] },
      pipes := [] }
  pipe_connections.foldl add_connection init

/-- The random flow assignment loop of `PipeNetwork.calculate_flow_rates`
(lines 96-100), with the stream of `np.random.uniform(-5, 5)` draws
modelled by an oracle `draws` consumed in iteration order. -/
def assign_flows : List (String × Pipe) → (ℕ → ℝ) → List (String × Pipe)
  | [], _ => []
  | np :: rest, draws =>
      (np.1, { np.2 with flow_rate := draws 0 }) :: assign_flows rest fun i => draws (i + 1)

/-- `PipeNetwork.calculate_flow_rates` (lines 96-100): overwrite every
pipe's `flow_rate` with the next random draw. -/
def calculate_flow_rates (net : PipeNetwork) (draws : ℕ → ℝ) : PipeNetwork :=
  { net with pipes := assign_flows net.pipes draws }

/-- Dereference a stored pipe reference. -/
def pipe_at (net : PipeNetwork) (i : ℕ) : Option Pipe :=
  (net.pipes.get? i).map Prod.snd

/-- `PipeNetwork.print_flow_rates` (lines 102-105): prints one line per
pipe; the printed data is the pipe name and its flow rate (cfs).  The
method only reads the state, so it returns it unchanged next to the
printed data. -/
def print_flow_rates (net : PipeNetwork) : PipeNetwork × List (String × ℝ) :=
  (net, net.pipes.map fun np => (np.1, np.2.flow_rate))

/-- The generator-sum inside `PipeNetwork.check_node_flows` (line 109):
`pipe.flow_rate` when the node is the pipe's start node, `-pipe.flow_rate`
otherwise.  Object identity of nodes coincides with name equality, since
the network holds exactly one node per name. -/
def net_flow (net : PipeNetwork) (n : Node) : ℝ :=
  (n.connected_pipes.map fun i =>
    match pipe_at net i with
    | some p => if p.start_node = n.name then p.flow_rate else -p.flow_rate
    | none => 0).sum

/-- `PipeNetwork.check_node_flows` (lines 107-110): prints the net flow
into each node. -/
def check_node_flows (net : PipeNetwork) : PipeNetwork × List (Char × ℝ) :=
  (net, net.nodes.map fun n => (n.name, net_flow net n))

/-- The `self.nodes[name]` dict access, modelled by name lookup (each name
occurs exactly once in the constructed network). -/
def get_node (net : PipeNetwork) (c : Char) : Option Node :=
  net.nodes.find? fun n => n.name = c

/-- The `loop_connections` list of `check_loop_head_loss` (line 113). -/
def loop_connections : List (Char × Char) :=
  [('a', 'b'), ('b', 'e'), ('e', 'i'), ('i', 'h'), ('h', 'a')]

/-- `PipeNetwork.check_loop_head_loss` (lines 112-118): for each loop edge
prints `delta_p`, the difference of the two node pressures (psi). -/
def check_loop_head_loss (net : PipeNetwork) : PipeNetwork × List (Option ℝ) :=
  (net, loop_connections.map fun conn => do
    let s ← get_node net conn.1
    let e ← get_node net conn.2
    pure (s.pressure - e.pressure))

/-- The loop body sequence of `PipeNetwork.calculate_head_loss`
(lines 120-123): each pipe's `calculate_flow_rate()` result in order; an
uncaught `ZeroDivisionError` aborts the whole loop. -/
def head_loss_lines : List (String × Pipe) → Except PyErr (List (String × ℝ))
  | [] => .ok []
  | np :: rest => do
      let hl ← np.2.calculate_flow_rate
      let tail ← head_loss_lines rest
      pure ((np.1, hl) :: tail)

/-- `PipeNetwork.calculate_head_loss` (lines 120-123): prints each pipe's
head loss; no handler catches a raised `ZeroDivisionError`. -/
def calculate_head_loss (net : PipeNetwork) : PipeNetwork × Except PyErr (List (String × ℝ)) :=
  (net, head_loss_lines net.pipes)

/-- `PipeNetwork.calculate_pressures` (lines 125-127): prints each node's
pressure. -/
def calculate_pressures (net : PipeNetwork) : PipeNetwork × List (Char × ℝ) :=
  (net, net.nodes.map fun n => (n.name, n.pressure))

end Ex2_3

namespace Ex2_3_1

/-- Acceleration due to gravity (ft/s^2), module constant `g` of `Ex2_3_1.py`. -/
def g : ℝ := 32.2

/-- Density of water (lb/ft^3), module constant `rho` of `Ex2_3_1.py`. -/
def rho : ℝ := 62.3

/-- Viscosity of water (lb/(ft*s)), module constant `mu` of `Ex2_3_1.py`. -/
def mu : ℝ := 20.50e-6

/-- Conversion factor from inches to feet, module constant of `Ex2_3_1.py`. -/
def inch_to_ft : ℝ := 1 / 12

/-- The `Pipe` class of `Ex2_3_1.py` (lines 9-49); identical to the one in
`Ex2_3.py` up to docstrings. -/
structure Pipe where
  diameter : ℝ
  length : ℝ
  roughness : ℝ
  start_node : Char
  end_node : Char
  flow_rate : ℝ

/-- The `if Re < 2000 / else` statement of `Ex2_3_1.py` lines 40-45. -/
def friction_step (re : ℝ) : Except PyErr ℝ :=
  if re < 2000 then pydiv 64 re else pure 0.02

/-- `Pipe.calculate_flow_rate` of `Ex2_3_1.py` (lines 29-49). -/
def Pipe.calculate_flow_rate (p : Pipe) : Except PyErr ℝ := do
  let velocity ← pydiv p.flow_rate (Real.pi * (p.diameter * inch_to_ft / 2) ^ 2)
  let re ← pydiv (velocity * p.diameter * inch_to_ft) mu
  let f ← friction_step re
  let t ← pydiv (f * (p.length * inch_to_ft)) (p.diameter * inch_to_ft)
  pydiv (t * (rho * velocity ^ 2)) (2 * g)

/-- The `Node` class of `Ex2_3_1.py` (lines 51-71). -/
structure Node where
  name : Char
  pressure : ℝ
  connected_pipes : List ℕ

/-- `Node.add_pipe` of `Ex2_3_1.py` (lines 65-71). -/
def Node.add_pipe (n : Node) (pipeRef : ℕ) : Node :=
  { n with connected_pipes := n.connected_pipes ++ [pipeRef] }

/-- The `PipeNetwork` class state of `Ex2_3_1.py`. -/
structure PipeNetwork where
  nodes : List Node
  pipes : List (String × Pipe)

/-- The `pipe_connections` dict of `Ex2_3_1.py` (lines 82-96). -/
def pipe_connections : List (String × Char × Char) :=
  [("a-b", 'a', 'b'), ("a-h", 'a', 'h'), ("b-c", 'b', 'c'), ("b-e", 'b', 'e'),
   ("c-d", 'c', 'd'), ("c-f", 'c', 'f'), ("d-g", 'd', 'g'), ("e-f", 'e', 'f'),
   ("e-i", 'e', 'i'), ("f-g", 'f', 'g'), ("g-j", 'g', 'j'), ("h-i", 'h', 'i'),
   ("i-j", 'i', 'j')]

/-- `PipeNetwork.get_pipe_properties` of `Ex2_3_1.py` (lines 109-134). -/
def get_pipe_properties (pipe_name : String) : ℝ × ℝ × ℝ :=
  if pipe_name = "a-b" then (18, 1000, 0.00085)
  else if pipe_name = "a-h" then (24, 1600, 0.00085)
  else if pipe_name = "b-c" then (18, 500, 0.00085)
  else if pipe_name = "b-e" then (16, 800, 0.00085)
  else if pipe_name = "c-d" then (18, 500, 0.00085)
  else if pipe_name = "c-f" then (16, 800, 0.00085)
  else if pipe_name = "d-g" then (16, 800, 0.00085)
  else if pipe_name = "e-f" then (12, 500, 0.00085)
  else if pipe_name = "e-i" then (18, 800, 0.003)
  else if pipe_name = "f-g" then (12, 500, 0.00085)
  else if pipe_name = "g-j" then (18, 800, 0.003)
  else if pipe_name = "h-i" then (24, 1000, 0.003)
  else if pipe_name = "i-j" then (24, 1000, 0.003)
  else (0, 0, 0)

/-- One iteration of the pipe-creation loop of `Ex2_3_1.py` (lines 100-107). -/
def add_connection (net : PipeNetwork) (conn : String × Char × Char) : PipeNetwork :=
  let pipeRef := net.pipes.length
  let props := get_pipe_properties conn.1
  let pipe : Pipe :=
    { diameter := props.1, length := props.2.1, roughness := props.2.2,
      start_node := conn.2.1, end_node := conn.2.2, flow_rate := 0 }
  { nodes :=
      (net.nodes.map fun n => if n.name = conn.2.1 then n.add_pipe pipeRef else n).map
        fun n => if n.name = conn.2.2 then n.add_pipe pipeRef else n,
    pipes := net.pipes ++ [(conn.1, pipe)] }

/-- `PipeNetwork.__init__` of `Ex2_3_1.py` (lines 76-107). -/
def mkNetwork : PipeNetwork :=
  let init : PipeNetwork :=
    { nodes := "abcdefghij".toList.map fun c =>
        { name := c, pressure := 80, connected_pipes := [] },
      pipes := [] }
  pipe_connections.foldl add_connection init

/-- The random flow assignment loop of `Ex2_3_1.py` (lines 136-141). -/
def assign_flows : List (String × Pipe) → (ℕ → ℝ) → List (String × Pipe)
  | [], _ => []
  | np :: rest, draws =>
      (np.1, { np.2 with flow_rate := draws 0 }) :: assign_flows rest fun i => draws (i + 1)

/-- `PipeNetwork.calculate_flow_rates` of `Ex2_3_1.py` (lines 136-141). -/
def calculate_flow_rates (net : PipeNetwork) (draws : ℕ → ℝ) : PipeNetwork :=
  { net with pipes := assign_flows net.pipes draws }

/-- Dereference a stored pipe reference. -/
def pipe_at (net : PipeNetwork) (i : ℕ) : Option Pipe :=
  (net.pipes.get? i).map Prod.snd

/-- `PipeNetwork.print_flow_rates` of `Ex2_3_1.py` (lines 143-147). -/
def print_flow_rates (net : PipeNetwork) : PipeNetwork × List (String × ℝ) :=
  (net, net.pipes.map fun np => (np.1, np.2.flow_rate))

/-- The generator-sum inside `check_node_flows` of `Ex2_3_1.py` (line 180). -/
def net_flow (net : PipeNetwork) (n : Node) : ℝ :=
  (n.connected_pipes.map fun i =>
    match pipe_at net i with
    | some p => if p.start_node = n.name then p.flow_rate else -p.flow_rate
    | none => 0).sum

/-- `PipeNetwork.check_node_flows` of `Ex2_3_1.py` (lines 170-182). -/
def check_node_flows (net : PipeNetwork) : PipeNetwork × List (Char × ℝ) :=
  (net, net.nodes.map fun n => (n.name, net_flow net n))

/-- The `self.nodes[name]` dict access of `Ex2_3_1.py`. -/
def get_node (net : PipeNetwork) (c : Char) : Option Node :=
  net.nodes.find? fun n => n.name = c

/-- The `loop_connections` list of `Ex2_3_1.py` (line 151): four loop edges,
one fewer than the `Ex2_3.py` variant. -/
def loop_connections : List (Char × Char) :=
  [('a', 'b'), ('b', 'e'), ('e', 'i'), ('i', 'h')]

/-- `PipeNetwork.check_loop_head_loss` of `Ex2_3_1.py` (lines 149-156). -/
def check_loop_head_loss (net : PipeNetwork) : PipeNetwork × List (Option ℝ) :=
  (net, loop_connections.map fun conn => do
    let s ← get_node net conn.1
    let e ← get_node net conn.2
    pure (s.pressure - e.pressure))

/-- The loop body sequence of `calculate_head_loss` of `Ex2_3_1.py`
(lines 158-163). -/
def head_loss_lines : List (String × Pipe) → Except PyErr (List (String × ℝ))
  | [] => .ok []
  | np :: rest => do
      let hl ← np.2.calculate_flow_rate
      let tail ← head_loss_lines rest
      pure ((np.1, hl) :: tail)

/-- `PipeNetwork.calculate_head_loss` of `Ex2_3_1.py` (lines 158-163). -/
def calculate_head_loss (net : PipeNetwork) : PipeNetwork × Except PyErr (List (String × ℝ)) :=
  (net, head_loss_lines net.pipes)

/-- `PipeNetwork.calculate_pressures` of `Ex2_3_1.py` (lines 165-168). -/
def calculate_pressures (net : PipeNetwork) : PipeNetwork × List (Char × ℝ) :=
  (net, net.nodes.map fun n => (n.name, n.pressure))

end Ex2_3_1

section Ex2_3_calc_lemmas

open Ex2_3

theorem ok_bind {α β : Type} (a : α) (f : α → Except PyErr β) :
    Except.ok a >>= f = f a := rfl

theorem friction_step_ok (re : ℝ) (hre : re ≠ 0) :
    friction_step re = .ok (friction_factor re) := by
  unfold friction_step friction_factor
  by_cases h : re < 2000
  · rw [if_pos h, if_pos h, pydiv_ne_zero _ _ hre]
  · rw [if_neg h, if_neg h]
    rfl

theorem ex2_3_area_ne_zero {p : Pipe} (hd : p.diameter ≠ 0) :
    Real.pi * (p.diameter * inch_to_ft / 2) ^ 2 ≠ 0 := by
  have h1 : p.diameter * inch_to_ft / 2 ≠ 0 := by
    rw [inch_to_ft]
    intro h
    apply hd
    field_simp at h
    exact h
  exact mul_ne_zero Real.pi_ne_zero (pow_ne_zero 2 h1)

theorem ex2_3_mu_ne_zero : mu ≠ 0 := by
  rw [mu]; norm_num

theorem ex2_3_velocity_ne_zero {p : Pipe} (hd : p.diameter ≠ 0)
    (hq : p.flow_rate ≠ 0) : p.velocity_val ≠ 0 :=
  div_ne_zero hq (ex2_3_area_ne_zero hd)

theorem ex2_3_re_ne_zero {p : Pipe} (hd : p.diameter ≠ 0)
    (hq : p.flow_rate ≠ 0) : p.re_val ≠ 0 := by
  unfold Pipe.re_val
  refine div_ne_zero (mul_ne_zero (mul_ne_zero ?_ hd) ?_) ex2_3_mu_ne_zero
  · exact ex2_3_velocity_ne_zero hd hq
  · rw [inch_to_ft]; norm_num

/-- When the diameter and the flow rate are nonzero, no division raises and
`calculate_flow_rate` returns `head_loss_val`. -/
theorem ex2_3_calc_ok (p : Pipe) (hd : p.diameter ≠ 0) (hq : p.flow_rate ≠ 0) :
    p.calculate_flow_rate = .ok p.head_loss_val := by
  have hA := ex2_3_area_ne_zero hd
  have hdc : p.diameter * inch_to_ft ≠ 0 := by
    refine mul_ne_zero hd ?_
    rw [inch_to_ft]; norm_num
  have h2g : (2 : ℝ) * g ≠ 0 := by rw [g]; norm_num
  have hre2 : p.flow_rate / (Real.pi * (p.diameter * inch_to_ft / 2) ^ 2) *
      p.diameter * inch_to_ft / mu ≠ 0 := ex2_3_re_ne_zero hd hq
  unfold Pipe.calculate_flow_rate
  rw [pydiv_ne_zero _ _ hA, ok_bind, pydiv_ne_zero _ _ ex2_3_mu_ne_zero, ok_bind,
    friction_step_ok _ hre2, ok_bind, pydiv_ne_zero _ _ hdc, ok_bind,
    pydiv_ne_zero _ _ h2g]
  rfl

end Ex2_3_calc_lemmas

namespace Ex2_1

/-- `ivp_function` of `Ex2_1.py` (lines 5-19): the right-hand side
`(y - 0.01*x**2)**2 * np.sin(x**2) + 0.02*x` of the ODE. -/
def ivp_function (x y : ℝ) : ℝ :=
  (y - 0.01 * x ^ 2) ^ 2 * Real.sin (x ^ 2) + 0.02 * x

/-- `S` of `Ex2_1.py` (lines 21-34): `quad(lambda t: np.sin(t**2), 0, x)[0]`,
the integral of `sin(t^2)` from `0` to `x`, modelled by the exact interval
integral that `quad` approximates. -/
def S (x : ℝ) : ℝ := ∫ t in (0 : ℝ)..x, Real.sin (t ^ 2)

/-- `exact_solution` of `Ex2_1.py` (lines 36-49): `1 / (2.5 - S(x)) + 0.01*x**2`. -/
def exact_solution (x : ℝ) : ℝ := 1 / (2.5 - S x) + 0.01 * x ^ 2

/-- The initial condition `[0.4]` passed to `solve_ivp` (line 56). -/
def ivp_y0 : ℝ := 0.4

end Ex2_1

section Ex2_1_lemmas

theorem sinsq_continuous : Continuous fun t : ℝ => Real.sin (t ^ 2) :=
  Real.continuous_sin.comp (continuous_pow 2)

theorem S_hasDerivAt (x : ℝ) : HasDerivAt Ex2_1.S (Real.sin (x ^ 2)) x :=
  (sinsq_continuous.integral_hasStrictDerivAt 0 x).hasDerivAt

theorem S_neg (x : ℝ) : Ex2_1.S (-x) = -Ex2_1.S x := by
  have h := intervalIntegral.integral_comp_neg (a := 0) (b := x) fun t => Real.sin (t ^ 2)
  simp only [neg_sq, neg_zero] at h
  unfold Ex2_1.S
  rw [intervalIntegral.integral_symm, ← h]

theorem abs_S_le_of_le_one {x : ℝ} (h0 : 0 ≤ x) (h1 : x ≤ 1) : |Ex2_1.S x| ≤ 1 := by
  have hb : ∀ t ∈ Set.uIoc (0 : ℝ) x, ‖Real.sin (t ^ 2)‖ ≤ 1 := by
    intro t _
    rw [Real.norm_eq_abs]
    exact abs_le.mpr ⟨Real.neg_one_le_sin _, Real.sin_le_one _⟩
  have h := intervalIntegral.norm_integral_le_of_norm_le_const hb
  rw [Real.norm_eq_abs] at h
  calc |Ex2_1.S x| ≤ 1 * |x - 0| := h
    _ ≤ 1 := by rw [sub_zero, one_mul, abs_of_nonneg h0]; exact h1

theorem sin_sq_tail_bound {x : ℝ} (hx : 1 ≤ x) :
    |∫ t in (1 : ℝ)..x, Real.sin (t ^ 2)| ≤ 1 := by
  have hpos : ∀ t ∈ Set.uIcc (1 : ℝ) x, (0 : ℝ) < t := by
    intro t ht
    rw [Set.uIcc_of_le hx] at ht
    linarith [ht.1]
  have hcongr : (∫ t in (1 : ℝ)..x, Real.sin (t ^ 2))
      = ∫ t in (1 : ℝ)..x, (2 * t)⁻¹ * (2 * t * Real.sin (t ^ 2)) := by
    apply intervalIntegral.integral_congr
    intro t ht
    have h2t : (2 : ℝ) * t ≠ 0 := by have := hpos t ht; positivity
    show Real.sin (t ^ 2) = (2 * t)⁻¹ * (2 * t * Real.sin (t ^ 2))
    rw [inv_mul_cancel_left₀ h2t]
  have hu : ∀ t ∈ Set.uIcc (1 : ℝ) x,
      HasDerivAt (fun s : ℝ => (2 * s)⁻¹) (-(2 * 1) / (2 * t) ^ 2) t := by
    intro t ht
    have h2t : (2 : ℝ) * t ≠ 0 := by have := hpos t ht; positivity
    exact ((hasDerivAt_id t).const_mul 2).inv h2t
  have hv : ∀ t ∈ Set.uIcc (1 : ℝ) x,
      HasDerivAt (fun s : ℝ => -Real.cos (s ^ 2)) (2 * t * Real.sin (t ^ 2)) t := by
    intro t _
    have h := ((hasDerivAt_pow 2 t).cos).neg
    convert h using 1
    push_cast
    ring
  have hsqcont : Continuous fun t : ℝ => (2 * t) ^ 2 :=
    (continuous_const.mul continuous_id).pow 2
  have hu'int : IntervalIntegrable (fun t : ℝ => -(2 * 1) / (2 * t) ^ 2)
      MeasureTheory.volume 1 x := by
    apply ContinuousOn.intervalIntegrable
    apply ContinuousOn.div continuousOn_const hsqcont.continuousOn
    intro t ht
    have := hpos t ht
    positivity
  have hv'int : IntervalIntegrable (fun t : ℝ => 2 * t * Real.sin (t ^ 2))
      MeasureTheory.volume 1 x :=
    Continuous.intervalIntegrable ((continuous_const.mul continuous_id).mul sinsq_continuous) 1 x
  have hibp := intervalIntegral.integral_mul_deriv_eq_deriv_mul hu hv hu'int hv'int
  have hgint : IntervalIntegrable (fun t : ℝ => 2 / (2 * t) ^ 2)
      MeasureTheory.volume 1 x := by
    apply ContinuousOn.intervalIntegrable
    apply ContinuousOn.div continuousOn_const hsqcont.continuousOn
    intro t ht
    have := hpos t ht
    positivity
  have hae : ∀ᵐ t ∂(MeasureTheory.volume.restrict (Set.uIoc (1 : ℝ) x)),
      ‖-(2 * 1) / (2 * t) ^ 2 * -Real.cos (t ^ 2)‖ ≤ 2 / (2 * t) ^ 2 := by
    refine (MeasureTheory.ae_restrict_mem measurableSet_uIoc).mono ?_
    intro t ht
    rw [Set.uIoc_of_le hx] at ht
    have ht1 : (1 : ℝ) < t := ht.1
    have htpos : (0 : ℝ) < (2 * t) ^ 2 := by positivity
    rw [Real.norm_eq_abs, abs_mul, abs_div, abs_neg, abs_neg]
    have hcos : |Real.cos (t ^ 2)| ≤ 1 :=
      abs_le.mpr ⟨Real.neg_one_le_cos _, Real.cos_le_one _⟩
    have h1 : |(2 : ℝ) * 1| / |(2 * t) ^ 2| = 2 / (2 * t) ^ 2 := by
      rw [abs_of_nonneg (by norm_num : (0:ℝ) ≤ 2 * 1), abs_of_pos htpos]
      norm_num
    calc |(2 : ℝ) * 1| / |(2 * t) ^ 2| * |Real.cos (t ^ 2)|
        ≤ |(2 : ℝ) * 1| / |(2 * t) ^ 2| * 1 := by
          apply mul_le_mul_of_nonneg_left hcos (by positivity)
      _ = 2 / (2 * t) ^ 2 := by rw [mul_one, h1]
  have hW := intervalIntegral.norm_integral_le_of_norm_le hae hgint
  have hF : ∀ t ∈ Set.uIcc (1 : ℝ) x,
      HasDerivAt (fun s : ℝ => -(2 * s)⁻¹) (2 / (2 * t) ^ 2) t := by
    intro t ht
    have h2t : (2 : ℝ) * t ≠ 0 := by have := hpos t ht; positivity
    have h := (((hasDerivAt_id t).const_mul 2).inv h2t).neg
    convert h using 1
    rw [neg_div, neg_neg]
    norm_num
  have hgeval : (∫ t in (1 : ℝ)..x, 2 / (2 * t) ^ 2) = -(2 * x)⁻¹ - -(2 * 1)⁻¹ :=
    intervalIntegral.integral_eq_sub_of_hasDerivAt hF hgint
  have hxpos : (0 : ℝ) < x := by linarith
  have hxinvpos : (0 : ℝ) < (2 * x)⁻¹ := by positivity
  have hxinv : (2 * x)⁻¹ ≤ (2 : ℝ)⁻¹ := by
    apply inv_anti₀ (by norm_num)
    linarith
  rw [Real.norm_eq_abs] at hW
  have hg' : |∫ t in (1 : ℝ)..x, 2 / (2 * t) ^ 2| ≤ (2 : ℝ)⁻¹ - (2 * x)⁻¹ := by
    have heq : -(2 * x)⁻¹ - -(2 * (1:ℝ))⁻¹ = (2 : ℝ)⁻¹ - (2 * x)⁻¹ := by ring_nf
    rw [hgeval, heq, abs_of_nonneg (by linarith)]
  obtain ⟨hWl, hWr⟩ := abs_le.mp (hW.trans hg')
  rw [hcongr, hibp]
  have hcosx : |Real.cos (x ^ 2)| ≤ 1 :=
    abs_le.mpr ⟨Real.neg_one_le_cos _, Real.cos_le_one _⟩
  have hcos1 : |Real.cos ((1 : ℝ) ^ 2)| ≤ 1 :=
    abs_le.mpr ⟨Real.neg_one_le_cos _, Real.cos_le_one _⟩
  have hcx : |(2 * x)⁻¹ * -Real.cos (x ^ 2)| ≤ (2 * x)⁻¹ := by
    rw [abs_mul, abs_neg, abs_of_pos hxinvpos]
    calc (2 * x)⁻¹ * |Real.cos (x ^ 2)| ≤ (2 * x)⁻¹ * 1 :=
          mul_le_mul_of_nonneg_left hcosx hxinvpos.le
      _ = (2 * x)⁻¹ := mul_one _
  have hc1 : |(2 * (1 : ℝ))⁻¹ * -Real.cos ((1 : ℝ) ^ 2)| ≤ (2 : ℝ)⁻¹ := by
    rw [abs_mul, abs_neg]
    have habs : |((2 : ℝ) * 1)⁻¹| = (2 : ℝ)⁻¹ := by norm_num
    rw [habs]
    calc (2 : ℝ)⁻¹ * |Real.cos ((1 : ℝ) ^ 2)| ≤ (2 : ℝ)⁻¹ * 1 :=
          mul_le_mul_of_nonneg_left hcos1 (by norm_num)
      _ = (2 : ℝ)⁻¹ := mul_one _
  obtain ⟨hxl, hxr⟩ := abs_le.mp hcx
  obtain ⟨h1l, h1r⟩ := abs_le.mp hc1
  apply abs_le.mpr
  constructor <;> [skip; skip] <;> linarith

theorem abs_S_le_two (x : ℝ) : |Ex2_1.S x| ≤ 2 := by
  have hnn : ∀ y : ℝ, 0 ≤ y → |Ex2_1.S y| ≤ 2 := by
    intro y hy
    rcases le_or_lt y 1 with h1 | h1
    · exact (abs_S_le_of_le_one hy h1).trans (by norm_num)
    · have hsplit : Ex2_1.S 1 + ∫ t in (1 : ℝ)..y, Real.sin (t ^ 2) = Ex2_1.S y :=
        intervalIntegral.integral_add_adjacent_intervals
          (sinsq_continuous.intervalIntegrable 0 1) (sinsq_continuous.intervalIntegrable 1 y)
      have h1b := abs_S_le_of_le_one (by norm_num : (0:ℝ) ≤ 1) le_rfl
      have h2b := sin_sq_tail_bound h1.le
      calc |Ex2_1.S y| = |Ex2_1.S 1 + ∫ t in (1 : ℝ)..y, Real.sin (t ^ 2)| := by rw [hsplit]
        _ ≤ |Ex2_1.S 1| + |∫ t in (1 : ℝ)..y, Real.sin (t ^ 2)| := abs_add _ _
        _ ≤ 2 := by linarith
  rcases le_or_lt 0 x with hx | hx
  · exact hnn x hx
  · have h := hnn (-x) (by linarith)
    rw [S_neg, abs_neg] at h
    exact h

theorem ex2_1_denom_ne_zero (x : ℝ) : 2.5 - Ex2_1.S x ≠ 0 := by
  intro hzero
  have h2 := (abs_le.mp (abs_S_le_two x)).2
  have hS : Ex2_1.S x = 2.5 := by linarith
  rw [hS] at h2
  norm_num at h2

theorem exact_solution_hasDerivAt (x : ℝ) :
    HasDerivAt Ex2_1.exact_solution (Ex2_1.ivp_function x (Ex2_1.exact_solution x)) x := by
  have hne : 2.5 - Ex2_1.S x ≠ 0 := ex2_1_denom_ne_zero x
  have h1 : HasDerivAt (fun y => 2.5 - Ex2_1.S y) (-Real.sin (x ^ 2)) x :=
    (S_hasDerivAt x).const_sub 2.5
  have h2 := h1.inv hne
  have h3 : HasDerivAt (fun y : ℝ => 0.01 * y ^ 2) (0.01 * ((2 : ℕ) * x ^ 1)) x :=
    (hasDerivAt_pow 2 x).const_mul 0.01
  have h4 := h2.add h3
  have heq : Ex2_1.exact_solution = fun y => (2.5 - Ex2_1.S y)⁻¹ + 0.01 * y ^ 2 := by
    funext y
    rw [Ex2_1.exact_solution, one_div]
  have h5 : Ex2_1.ivp_function x (Ex2_1.exact_solution x)
      = -(-Real.sin (x ^ 2)) / (2.5 - Ex2_1.S x) ^ 2 + 0.01 * ((2 : ℕ) * x ^ 1) := by
    unfold Ex2_1.ivp_function Ex2_1.exact_solution
    push_cast
    field_simp
    ring
  rw [h5, heq]
  exact h4

end Ex2_1_lemmas

section MoreHelpers

open Ex2_3

theorem error_bind {α β : Type} (e : PyErr) (f : α → Except PyErr β) :
    (Except.error e : Except PyErr α) >>= f = Except.error e := rfl

/-- With a zero flow rate, `calculate_flow_rate` always raises
`ZeroDivisionError`: in the laminar friction division `64 / Re` when the
diameter is nonzero, already in the velocity division otherwise. -/
theorem ex2_3_calc_zero_flow (p : Pipe) (hq : p.flow_rate = 0) :
    p.calculate_flow_rate = .error .zeroDivisionError := by
  unfold Pipe.calculate_flow_rate
  by_cases hd : p.diameter * inch_to_ft / 2 = 0
  · have hA : Real.pi * (p.diameter * inch_to_ft / 2) ^ 2 = 0 := by
      rw [hd]
      ring
    rw [hA, pydiv_zero]
    rfl
  · have hA : Real.pi * (p.diameter * inch_to_ft / 2) ^ 2 ≠ 0 :=
      mul_ne_zero Real.pi_ne_zero (pow_ne_zero 2 hd)
    rw [pydiv_ne_zero _ _ hA, ok_bind, hq, zero_div, zero_mul, zero_mul,
      pydiv_ne_zero _ _ ex2_3_mu_ne_zero, ok_bind, zero_div,
      show friction_step 0 = pydiv 64 0 from if_pos (by norm_num), pydiv_zero]
    rfl

/-- With a zero flow rate but nonzero diameter, the Reynolds number is
computed without error and equals `0`. -/
theorem ex2_3_reynolds_zero_flow (p : Pipe) (hd : p.diameter ≠ 0) (hq : p.flow_rate = 0) :
    p.reynolds = .ok 0 := by
  have hd2 : p.diameter * inch_to_ft / 2 ≠ 0 := by
    rw [inch_to_ft]
    intro h
    apply hd
    field_simp at h
    exact h
  have hA : Real.pi * (p.diameter * inch_to_ft / 2) ^ 2 ≠ 0 :=
    mul_ne_zero Real.pi_ne_zero (pow_ne_zero 2 hd2)
  unfold Pipe.reynolds
  rw [pydiv_ne_zero _ _ hA, ok_bind, hq, zero_div, zero_mul, zero_mul,
    pydiv_ne_zero _ _ ex2_3_mu_ne_zero, zero_div]

/-- `calculate_head_loss` on the freshly constructed network, whose pipes
all still carry the initial `flow_rate = 0`, propagates the uncaught
`ZeroDivisionError`. -/
theorem ex2_3_mk_head_loss_err :
    (Ex2_3.calculate_head_loss Ex2_3.mkNetwork).2 = .error .zeroDivisionError := by
  have hz : ∀ p : Pipe, p.flow_rate = 0 → p.calculate_flow_rate = .error .zeroDivisionError :=
    ex2_3_calc_zero_flow
  simp +decide [Ex2_3.calculate_head_loss, Ex2_3.mkNetwork, Ex2_3.pipe_connections,
    Ex2_3.add_connection, Ex2_3.get_pipe_properties, Ex2_3.head_loss_lines, hz, error_bind,
    Ex2_3.Node.add_pipe]

/-- The pipe store the `__init__` loop builds, evaluated. -/
theorem ex2_3_mk_pipes_eq : Ex2_3.mkNetwork.pipes =
    [("a-b", ⟨18, 1000, 0.00085, 'a', 'b', 0⟩), ("a-h", ⟨24, 1600, 0.00085, 'a', 'h', 0⟩),
     ("b-c", ⟨18, 500, 0.00085, 'b', 'c', 0⟩), ("b-e", ⟨16, 800, 0.00085, 'b', 'e', 0⟩),
     ("c-d", ⟨18, 500, 0.00085, 'c', 'd', 0⟩), ("c-f", ⟨16, 800, 0.00085, 'c', 'f', 0⟩),
     ("d-g", ⟨16, 800, 0.00085, 'd', 'g', 0⟩), ("e-f", ⟨12, 500, 0.00085, 'e', 'f', 0⟩),
     ("e-i", ⟨18, 800, 0.003, 'e', 'i', 0⟩), ("f-g", ⟨12, 500, 0.00085, 'f', 'g', 0⟩),
     ("g-j", ⟨18, 800, 0.003, 'g', 'j', 0⟩), ("h-i", ⟨24, 1000, 0.003, 'h', 'i', 0⟩),
     ("i-j", ⟨24, 1000, 0.003, 'i', 'j', 0⟩)] := rfl

/-- The node store the `__init__` loop builds, evaluated: ten nodes at the
default pressure 80, each holding the references of its incident pipes. -/
theorem ex2_3_mk_nodes_eq : Ex2_3.mkNetwork.nodes =
    [⟨'a', 80, [0, 1]⟩, ⟨'b', 80, [0, 2, 3]⟩, ⟨'c', 80, [2, 4, 5]⟩, ⟨'d', 80, [4, 6]⟩,
     ⟨'e', 80, [3, 7, 8]⟩, ⟨'f', 80, [5, 7, 9]⟩, ⟨'g', 80, [6, 9, 10]⟩, ⟨'h', 80, [1, 11]⟩,
     ⟨'i', 80, [8, 11, 12]⟩, ⟨'j', 80, [10, 12]⟩] := rfl

/-- Same evaluation for the `Ex2_3_1.py` network, which is built
identically. -/
theorem ex2_3_1_mk_nodes_eq : Ex2_3_1.mkNetwork.nodes =
    [⟨'a', 80, [0, 1]⟩, ⟨'b', 80, [0, 2, 3]⟩, ⟨'c', 80, [2, 4, 5]⟩, ⟨'d', 80, [4, 6]⟩,
     ⟨'e', 80, [3, 7, 8]⟩, ⟨'f', 80, [5, 7, 9]⟩, ⟨'g', 80, [6, 9, 10]⟩, ⟨'h', 80, [1, 11]⟩,
     ⟨'i', 80, [8, 11, 12]⟩, ⟨'j', 80, [10, 12]⟩] := rfl

end MoreHelpers

/-- Claim C1: in `Pipe.calculate_flow_rate` the friction factor is a two-way
constant selection on the Reynolds number — `64 / Re` when `Re < 2000`, the
hardcoded turbulent value `0.02` otherwise — with no iterative Colebrook
computation in either branch: when neither division raises, the method
returns exactly the head loss built from this closed-form selection. -/
theorem claim_C1 (p : Ex2_3.Pipe) (hd : p.diameter ≠ 0) (hq : p.flow_rate ≠ 0) :
    p.calculate_flow_rate = Except.ok p.head_loss_val ∧
    Ex2_3.friction_factor p.re_val =
      (if p.re_val < 2000 then 64 / p.re_val else (0.02 : ℝ)) :=
  ⟨ex2_3_calc_ok p hd hq, rfl⟩

/-- Witness for C1 at the concrete pipe `a-b` carrying flow rate 1. -/
theorem claim_C1_witness :
    Ex2_3.Pipe.calculate_flow_rate ⟨18, 1000, 0.00085, 'a', 'b', 1⟩ =
      Except.ok (Ex2_3.Pipe.head_loss_val ⟨18, 1000, 0.00085, 'a', 'b', 1⟩) ∧
    Ex2_3.friction_factor (Ex2_3.Pipe.re_val ⟨18, 1000, 0.00085, 'a', 'b', 1⟩) =
      (if Ex2_3.Pipe.re_val ⟨18, 1000, 0.00085, 'a', 'b', 1⟩ < 2000
        then 64 / Ex2_3.Pipe.re_val ⟨18, 1000, 0.00085, 'a', 'b', 1⟩ else (0.02 : ℝ)) :=
  claim_C1 ⟨18, 1000, 0.00085, 'a', 'b', 1⟩ (by norm_num) (by norm_num)

/-- Counterexample to C2 as stated: at the concrete zero-flow pipe `a-b`
the call does raise `ZeroDivisionError`, but the Reynolds number is not
undefined — lines 20-21 compute it without error as the defined value `0`;
the division that raises is the later friction-factor division `64 / Re`. -/
theorem claim_C2_counterexample :
    Ex2_3.Pipe.reynolds ⟨18, 1000, 0.00085, 'a', 'b', 0⟩ = Except.ok 0 ∧
    Ex2_3.Pipe.calculate_flow_rate ⟨18, 1000, 0.00085, 'a', 'b', 0⟩ =
      Except.error PyErr.zeroDivisionError :=
  ⟨ex2_3_reynolds_zero_flow _ (by norm_num) rfl, ex2_3_calc_zero_flow _ rfl⟩

/-- Claim C2 (amended): for every pipe with zero flow rate,
`calculate_flow_rate` raises `ZeroDivisionError`; for a nonzero diameter
the Reynolds number itself is computed as the defined value `0` and the
raising division is the laminar friction factor `64 / Re`; zero flow is the
only failure for nonzero diameter (any nonzero flow returns normally); and
no handler catches the error — `calculate_head_loss` on the freshly built
network propagates it. -/
theorem claim_C2 (d L r q : ℝ) (s e : Char) (hd : d ≠ 0) (hq : q ≠ 0) :
    Ex2_3.Pipe.calculate_flow_rate ⟨d, L, r, s, e, 0⟩ = Except.error PyErr.zeroDivisionError ∧
    Ex2_3.Pipe.reynolds ⟨d, L, r, s, e, 0⟩ = Except.ok 0 ∧
    Ex2_3.Pipe.calculate_flow_rate ⟨d, L, r, s, e, q⟩ =
      Except.ok (Ex2_3.Pipe.head_loss_val ⟨d, L, r, s, e, q⟩) ∧
    (Ex2_3.calculate_head_loss Ex2_3.mkNetwork).2 = Except.error PyErr.zeroDivisionError :=
  ⟨ex2_3_calc_zero_flow _ rfl, ex2_3_reynolds_zero_flow _ hd rfl,
    ex2_3_calc_ok _ hd hq, ex2_3_mk_head_loss_err⟩

/-- Modelled from the claim C3 wording (refinement comparison): the
Darcy-Weisbach head loss `h = f * (L/D) * v^2 / (2*g)` with `v` the flow
rate divided by the circular cross-sectional area, `f` the selected
friction factor, and `L/D` the length-to-diameter ratio (both in feet). -/
def Ex2_3.darcy_weisbach_spec (p : Ex2_3.Pipe) : ℝ :=
  Ex2_3.friction_factor p.re_val *
    ((p.length * Ex2_3.inch_to_ft) / (p.diameter * Ex2_3.inch_to_ft)) *
    p.velocity_val ^ 2 / (2 * Ex2_3.g)

theorem ex2_3_re_val_test_pipe :
    Ex2_3.Pipe.re_val ⟨18, 1000, 0.00085, 'a', 'b', 1⟩ = 16000000 / (123 * Real.pi) := by
  unfold Ex2_3.Pipe.re_val Ex2_3.Pipe.velocity_val
  rw [Ex2_3.inch_to_ft, Ex2_3.mu]
  have hpi := Real.pi_ne_zero
  norm_num
  field_simp
  ring

theorem ex2_3_re_val_test_pipe_ge :
    ¬ Ex2_3.Pipe.re_val ⟨18, 1000, 0.00085, 'a', 'b', 1⟩ < 2000 := by
  rw [ex2_3_re_val_test_pipe, not_lt, le_div_iff₀ (by positivity)]
  nlinarith [Real.pi_le_four, Real.pi_pos]

theorem ex2_3_velocity_test_pipe_ne_zero :
    Ex2_3.Pipe.velocity_val ⟨18, 1000, 0.00085, 'a', 'b', 1⟩ ≠ 0 := by
  apply ex2_3_velocity_ne_zero <;> norm_num

/-- Witness for C2 at pipe `a-b` with diameter 18 and probe flow rate 1. -/
theorem claim_C2_witness :
    Ex2_3.Pipe.calculate_flow_rate ⟨18, 1000, 0.00085, 'a', 'b', 0⟩ =
      Except.error PyErr.zeroDivisionError ∧
    Ex2_3.Pipe.reynolds ⟨18, 1000, 0.00085, 'a', 'b', 0⟩ = Except.ok 0 ∧
    Ex2_3.Pipe.calculate_flow_rate ⟨18, 1000, 0.00085, 'a', 'b', 1⟩ =
      Except.ok (Ex2_3.Pipe.head_loss_val ⟨18, 1000, 0.00085, 'a', 'b', 1⟩) ∧
    (Ex2_3.calculate_head_loss Ex2_3.mkNetwork).2 = Except.error PyErr.zeroDivisionError :=
  claim_C2 18 1000 0.00085 1 'a' 'b' (by norm_num) (by norm_num)

/-- Counterexample to C3 as stated: at the concrete pipe `a-b` with flow
rate 1 the returned value is not `f * (L/D) * v^2 / (2*g)` — the code
multiplies in the extra density factor `rho = 62.3` (line 32), so the two
differ. -/
theorem claim_C3_counterexample :
    Ex2_3.Pipe.calculate_flow_rate ⟨18, 1000, 0.00085, 'a', 'b', 1⟩ ≠
      Except.ok (Ex2_3.darcy_weisbach_spec ⟨18, 1000, 0.00085, 'a', 'b', 1⟩) := by
  intro hcontra
  rw [ex2_3_calc_ok _ (by norm_num) (by norm_num)] at hcontra
  have heq := Except.ok.inj hcontra
  have hrel : Ex2_3.Pipe.head_loss_val ⟨18, 1000, 0.00085, 'a', 'b', 1⟩ =
      Ex2_3.rho * Ex2_3.darcy_weisbach_spec ⟨18, 1000, 0.00085, 'a', 'b', 1⟩ := by
    unfold Ex2_3.Pipe.head_loss_val Ex2_3.darcy_weisbach_spec
    ring
  have hdwpos : 0 < Ex2_3.darcy_weisbach_spec ⟨18, 1000, 0.00085, 'a', 'b', 1⟩ := by
    have hf : Ex2_3.friction_factor (Ex2_3.Pipe.re_val ⟨18, 1000, 0.00085, 'a', 'b', 1⟩)
        = 0.02 := by
      unfold Ex2_3.friction_factor
      rw [if_neg ex2_3_re_val_test_pipe_ge]
    unfold Ex2_3.darcy_weisbach_spec
    rw [hf]
    have hv2 := pow_two_pos_of_ne_zero ex2_3_velocity_test_pipe_ne_zero
    have hLD : (0:ℝ) <
        ((⟨18, 1000, 0.00085, 'a', 'b', 1⟩ : Ex2_3.Pipe).length * Ex2_3.inch_to_ft) /
          ((⟨18, 1000, 0.00085, 'a', 'b', 1⟩ : Ex2_3.Pipe).diameter * Ex2_3.inch_to_ft) := by
      rw [Ex2_3.inch_to_ft]
      norm_num
    have h2g : (0:ℝ) < 2 * Ex2_3.g := by rw [Ex2_3.g]; norm_num
    apply div_pos _ h2g
    apply mul_pos (mul_pos (by norm_num) hLD) hv2
  rw [hrel, Ex2_3.rho] at heq
  nlinarith [hdwpos, heq]

/-- Claim C3 (amended): for every pipe with nonzero diameter and flow
rate, `calculate_flow_rate` returns the density `rho = 62.3` times the
Darcy-Weisbach head loss `f * (L/D) * v^2 / (2*g)` — not that head loss
itself. -/
theorem claim_C3 (p : Ex2_3.Pipe) (hd : p.diameter ≠ 0) (hq : p.flow_rate ≠ 0) :
    p.calculate_flow_rate = Except.ok (Ex2_3.rho * Ex2_3.darcy_weisbach_spec p) := by
  rw [ex2_3_calc_ok p hd hq]
  congr 1
  unfold Ex2_3.Pipe.head_loss_val Ex2_3.darcy_weisbach_spec
  ring

/-- Witness for C3 at the concrete pipe `a-b` with flow rate 1. -/
theorem claim_C3_witness :
    Ex2_3.Pipe.calculate_flow_rate ⟨18, 1000, 0.00085, 'a', 'b', 1⟩ =
      Except.ok (Ex2_3.rho * Ex2_3.darcy_weisbach_spec ⟨18, 1000, 0.00085, 'a', 'b', 1⟩) :=
  claim_C3 ⟨18, 1000, 0.00085, 'a', 'b', 1⟩ (by norm_num) (by norm_num)

/-- Claim C9: a strictly negative flow rate (with the positive static
diameter and length every constructed pipe has) gives a strictly negative
Reynolds number, hence always the laminar branch `f = 64 / Re` regardless
of the flow's magnitude, and a strictly negative returned head loss; and
indeed every pipe of the constructed network has positive diameter and
length. -/
theorem claim_C9 (p : Ex2_3.Pipe) (hd : 0 < p.diameter) (hL : 0 < p.length)
    (hq : p.flow_rate < 0) :
    p.re_val < 0 ∧
    Ex2_3.friction_factor p.re_val = 64 / p.re_val ∧
    p.calculate_flow_rate = Except.ok p.head_loss_val ∧
    p.head_loss_val < 0 ∧
    ∀ np ∈ Ex2_3.mkNetwork.pipes, 0 < np.2.diameter ∧ 0 < np.2.length := by
  have hcpos : (0:ℝ) < Ex2_3.inch_to_ft := by rw [Ex2_3.inch_to_ft]; norm_num
  have hApos : 0 < Real.pi * (p.diameter * Ex2_3.inch_to_ft / 2) ^ 2 := by
    have hd2 : 0 < p.diameter * Ex2_3.inch_to_ft / 2 := by positivity
    positivity
  have hv : p.velocity_val < 0 := div_neg_of_neg_of_pos hq hApos
  have hmu : (0:ℝ) < Ex2_3.mu := by rw [Ex2_3.mu]; norm_num
  have hre : p.re_val < 0 := by
    unfold Ex2_3.Pipe.re_val
    apply div_neg_of_neg_of_pos _ hmu
    exact mul_neg_of_neg_of_pos (mul_neg_of_neg_of_pos hv hd) hcpos
  have hb : p.re_val < 2000 := hre.trans (by norm_num)
  have hff : Ex2_3.friction_factor p.re_val = 64 / p.re_val := if_pos hb
  have hffneg : Ex2_3.friction_factor p.re_val < 0 := by
    rw [hff]
    exact div_neg_of_pos_of_neg (by norm_num) hre
  have hhead : p.head_loss_val < 0 := by
    unfold Ex2_3.Pipe.head_loss_val
    have h2g : (0:ℝ) < 2 * Ex2_3.g := by rw [Ex2_3.g]; norm_num
    have hrhov : 0 < Ex2_3.rho * p.velocity_val ^ 2 :=
      mul_pos (by rw [Ex2_3.rho]; norm_num) (pow_two_pos_of_ne_zero (ne_of_lt hv))
    have hLc : 0 < p.length * Ex2_3.inch_to_ft := mul_pos hL hcpos
    have hdc : 0 < p.diameter * Ex2_3.inch_to_ft := mul_pos hd hcpos
    exact div_neg_of_neg_of_pos
      (mul_neg_of_neg_of_pos
        (div_neg_of_neg_of_pos (mul_neg_of_neg_of_pos hffneg hLc) hdc) hrhov) h2g
  refine ⟨hre, hff, ex2_3_calc_ok p (ne_of_gt hd) (ne_of_lt hq), hhead, ?_⟩
  intro np hnp
  rw [ex2_3_mk_pipes_eq] at hnp
  simp only [List.mem_cons, List.not_mem_nil, or_false] at hnp
  rcases hnp with rfl | rfl | rfl | rfl | rfl | rfl | rfl | rfl | rfl | rfl | rfl | rfl | rfl <;>
    norm_num

/-- Witness for C9 at the concrete pipe `a-b` with reversed flow rate -1. -/
theorem claim_C9_witness :
    Ex2_3.Pipe.re_val ⟨18, 1000, 0.00085, 'a', 'b', -1⟩ < 0 ∧
    Ex2_3.Pipe.head_loss_val ⟨18, 1000, 0.00085, 'a', 'b', -1⟩ < 0 :=
  ⟨(claim_C9 ⟨18, 1000, 0.00085, 'a', 'b', -1⟩ (by norm_num) (by norm_num) (by norm_num)).1,
    (claim_C9 ⟨18, 1000, 0.00085, 'a', 'b', -1⟩ (by norm_num) (by norm_num)
      (by norm_num)).2.2.2.1⟩

/-- Claim C10: the duplicated scripts agree on the core computation — for
every diameter, length, roughness and nonzero flow rate (and any endpoint
names), `Pipe.calculate_flow_rate` of `Ex2_3.py` and of `Ex2_3_1.py`
return the same head loss value. -/
theorem claim_C10 (d L r q : ℝ) (s e : Char) (hq : q ≠ 0) :
    Ex2_3.Pipe.calculate_flow_rate ⟨d, L, r, s, e, q⟩ =
      Ex2_3_1.Pipe.calculate_flow_rate ⟨d, L, r, s, e, q⟩ := rfl

/-- Witness for C10 at the concrete pipe `a-b` with flow rate 1. -/
theorem claim_C10_witness :
    Ex2_3.Pipe.calculate_flow_rate ⟨18, 1000, 0.00085, 'a', 'b', 1⟩ =
      Ex2_3_1.Pipe.calculate_flow_rate ⟨18, 1000, 0.00085, 'a', 'b', 1⟩ :=
  claim_C10 18 1000 0.00085 1 'a' 'b' (by norm_num)

theorem ex2_3_assign_flows_get (l : List (String × Ex2_3.Pipe)) (draws : ℕ → ℝ) (i : ℕ) :
    (Ex2_3.assign_flows l draws)[i]? =
      (l[i]?).map fun np => (np.1, { np.2 with flow_rate := draws i }) := by
  induction l generalizing draws i with
  | nil => simp [Ex2_3.assign_flows]
  | cons np rest ih =>
      cases i with
      | zero => simp [Ex2_3.assign_flows]
      | succ n => simp [Ex2_3.assign_flows, ih]

/-- Claim C4: `calculate_flow_rates` overwrites every pipe's flow rate with
the next random draw (all draws lying in the interval `[-5, 5]`), is no
solution of any conservation or loop equation (the draws are an arbitrary
oracle stream), and leaves the nodes and every pipe's name, diameter,
length, roughness and endpoints unchanged. -/
theorem claim_C4 (net : Ex2_3.PipeNetwork) (draws : ℕ → ℝ)
    (hdraws : ∀ i, draws i ∈ Set.Icc (-5 : ℝ) 5) :
    (Ex2_3.calculate_flow_rates net draws).nodes = net.nodes ∧
    (∀ i, ((Ex2_3.calculate_flow_rates net draws).pipes)[i]? =
      (net.pipes[i]?).map fun np : String × Ex2_3.Pipe =>
        (np.1, { np.2 with flow_rate := draws i })) ∧
    ∀ i np', ((Ex2_3.calculate_flow_rates net draws).pipes)[i]? = some np' →
      np'.2.flow_rate = draws i ∧ np'.2.flow_rate ∈ Set.Icc (-5 : ℝ) 5 ∧
      ∃ np, net.pipes[i]? = some np ∧ np'.1 = np.1 ∧
        np'.2.diameter = np.2.diameter ∧ np'.2.length = np.2.length ∧
        np'.2.roughness = np.2.roughness ∧ np'.2.start_node = np.2.start_node ∧
        np'.2.end_node = np.2.end_node := by
  refine ⟨rfl, fun i => ex2_3_assign_flows_get net.pipes draws i, ?_⟩
  intro i np' h
  rw [show (Ex2_3.calculate_flow_rates net draws).pipes = Ex2_3.assign_flows net.pipes draws
      from rfl, ex2_3_assign_flows_get] at h
  cases hnet : net.pipes[i]? with
  | none => rw [hnet] at h; simp at h
  | some np =>
      rw [hnet] at h
      simp only [Option.map_some] at h
      obtain rfl := Option.some.inj h
      exact ⟨rfl, hdraws i, np, rfl, rfl, rfl, rfl, rfl, rfl, rfl⟩

/-- Witness for C4: assigning the all-zero draw stream to the constructed
network keeps its nodes unchanged. -/
theorem claim_C4_witness :
    (Ex2_3.calculate_flow_rates Ex2_3.mkNetwork fun _ => 0).nodes = Ex2_3.mkNetwork.nodes :=
  (claim_C4 Ex2_3.mkNetwork (fun _ => 0)
    (fun _ => Set.mem_Icc.mpr (by norm_num))).1

/-- Claim C5: the closed form `exact_solution(x) = 1/(2.5 - S(x)) + 0.01*x^2`
really solves the initial value problem the script hands to `solve_ivp`:
its value at `0` is the initial condition `0.4`, and at every `x` its
derivative is `ivp_function x (exact_solution x)`. -/
theorem claim_C5 :
    Ex2_1.exact_solution 0 = Ex2_1.ivp_y0 ∧ Ex2_1.ivp_y0 = 0.4 ∧
    ∀ x : ℝ, HasDerivAt Ex2_1.exact_solution (Ex2_1.ivp_function x (Ex2_1.exact_solution x)) x := by
  refine ⟨?_, rfl, exact_solution_hasDerivAt⟩
  unfold Ex2_1.exact_solution Ex2_1.S Ex2_1.ivp_y0
  rw [intervalIntegral.integral_same]
  norm_num

/-- Claim C6: mass conservation at nodes is not an invariant — there is an
outcome of the random draws (all within `[-5, 5]`) for which the net flow
`check_node_flows` computes at some node is nonzero, and the assignment is
accepted as-is. -/
theorem claim_C6 :
    ∃ draws : ℕ → ℝ, (∀ i, draws i ∈ Set.Icc (-5 : ℝ) 5) ∧
      ∃ cq : Char × ℝ,
        cq ∈ (Ex2_3.check_node_flows (Ex2_3.calculate_flow_rates Ex2_3.mkNetwork draws)).2 ∧
        cq.2 ≠ 0 := by
  refine ⟨fun _ => 1, fun i => Set.mem_Icc.mpr (by norm_num), ('a', 2), ?_, by norm_num⟩
  simp +decide [Ex2_3.check_node_flows, Ex2_3.calculate_flow_rates, Ex2_3.mkNetwork,
    Ex2_3.pipe_connections, Ex2_3.add_connection, Ex2_3.get_pipe_properties,
    Ex2_3.assign_flows, Ex2_3.net_flow, Ex2_3.pipe_at, Ex2_3.Node.add_pipe]
  norm_num

/-- Claim C7: the five reporting operations only produce output lines; each
returns the network state unchanged — every node's pressure and pipe list
and every pipe's attributes are untouched — in both scripts. -/
theorem claim_C7 :
    (∀ net : Ex2_3.PipeNetwork,
      (Ex2_3.print_flow_rates net).1 = net ∧ (Ex2_3.check_node_flows net).1 = net ∧
      (Ex2_3.check_loop_head_loss net).1 = net ∧ (Ex2_3.calculate_head_loss net).1 = net ∧
      (Ex2_3.calculate_pressures net).1 = net) ∧
    ∀ net : Ex2_3_1.PipeNetwork,
      (Ex2_3_1.print_flow_rates net).1 = net ∧ (Ex2_3_1.check_node_flows net).1 = net ∧
      (Ex2_3_1.check_loop_head_loss net).1 = net ∧ (Ex2_3_1.calculate_head_loss net).1 = net ∧
      (Ex2_3_1.calculate_pressures net).1 = net :=
  ⟨fun _ => ⟨rfl, rfl, rfl, rfl, rfl⟩, fun _ => ⟨rfl, rfl, rfl, rfl, rfl⟩⟩

/-- Claim C8: every node is constructed with the default pressure 80 psi,
no operation changes the nodes, and consequently every pressure difference
`delta_p` that `check_loop_head_loss` reports — in either script, after any
random flow assignment — is exactly 0. -/
theorem claim_C8 :
    (∀ n ∈ Ex2_3.mkNetwork.nodes, n.pressure = 80) ∧
    (∀ (net : Ex2_3.PipeNetwork) (draws : ℕ → ℝ),
      (Ex2_3.calculate_flow_rates net draws).nodes = net.nodes) ∧
    (∀ net : Ex2_3.PipeNetwork, (∀ n ∈ net.nodes, n.pressure = 80) →
      ∀ o ∈ (Ex2_3.check_loop_head_loss net).2, ∀ v, o = some v → v = 0) ∧
    (∀ draws : ℕ → ℝ,
      ∀ o ∈ (Ex2_3.check_loop_head_loss
        (Ex2_3.calculate_flow_rates Ex2_3.mkNetwork draws)).2, o = some 0) ∧
    (∀ draws : ℕ → ℝ,
      ∀ o ∈ (Ex2_3_1.check_loop_head_loss
        (Ex2_3_1.calculate_flow_rates Ex2_3_1.mkNetwork draws)).2, o = some 0) := by
  refine ⟨?_, fun _ _ => rfl, ?_, ?_, ?_⟩
  · intro n hn
    rw [ex2_3_mk_nodes_eq] at hn
    simp only [List.mem_cons, List.not_mem_nil, or_false] at hn
    rcases hn with rfl | rfl | rfl | rfl | rfl | rfl | rfl | rfl | rfl | rfl <;> rfl
  · intro net hp o ho v hov
    simp only [Ex2_3.check_loop_head_loss] at ho
    obtain ⟨conn, hconn, hfo⟩ := List.mem_map.mp ho
    subst hfo
    rcases hs : Ex2_3.get_node net conn.1 with _ | s
    · rw [hs] at hov
      simp at hov
    · rcases he : Ex2_3.get_node net conn.2 with _ | e
      · rw [hs, he] at hov
        simp at hov
      · rw [hs, he] at hov
        simp at hov
        have hsm : s ∈ net.nodes := List.mem_of_find?_eq_some hs
        have hem : e ∈ net.nodes := List.mem_of_find?_eq_some he
        rw [hp s hsm, hp e hem] at hov
        linarith
  · intro draws o ho
    have hnodes : (Ex2_3.calculate_flow_rates Ex2_3.mkNetwork draws).nodes
        = Ex2_3.mkNetwork.nodes := rfl
    simp only [Ex2_3.check_loop_head_loss, Ex2_3.loop_connections, Ex2_3.get_node, hnodes,
      ex2_3_mk_nodes_eq] at ho
    simp +decide at ho
    simpa using ho
  · intro draws o ho
    have hnodes : (Ex2_3_1.calculate_flow_rates Ex2_3_1.mkNetwork draws).nodes
        = Ex2_3_1.mkNetwork.nodes := rfl
    simp only [Ex2_3_1.check_loop_head_loss, Ex2_3_1.loop_connections, Ex2_3_1.get_node, hnodes,
      ex2_3_1_mk_nodes_eq] at ho
    simp +decide at ho
    simpa using ho

/-- Witness for C8: the first constructed node, `a`, carries pressure 80. -/
theorem claim_C8_witness : (Ex2_3.Node.mk 'a' 80 [0, 1]).pressure = 80 :=
  claim_C8.1 ⟨'a', 80, [0, 1]⟩ (by rw [ex2_3_mk_nodes_eq]; exact List.mem_cons_self _ _)
